import Mathlib

/-!
Shallow embedding of the ParPass recommendation API (`src/api.py`).

The model store (`model_data`) holds five read-only structures:
the member-by-course interaction matrix, the member-similarity matrix,
the member table, the course table, and a member-name lookup.
Pandas DataFrames are modelled as an explicit index list together with a
total valuation function; row tables (`members_df`, `courses_df`) are lists
of records, with `df[df.key == k]` + `len == 0` check + `.values[0]`
modelled by `List.find?` (first matching row).  Real-valued similarity
scores are modelled by exact rationals `ℚ`.
-/

/-- A row of `courses_df`: course id plus metadata columns. -/
structure Course where
  course_id : String
  name : String
  city : String
  state : String
  tier_required : String
deriving Repr, DecidableEq

/-- A row of `members_df`: member id and tier. -/
structure Member where
  member_id : String
  tier : String
deriving Repr, DecidableEq

/-- One entry of the JSON recommendation list built by `get_recommendations`
and `get_popular_courses`. -/
structure RecEntry where
  id : String
  name : String
  city : String
  state : String
  tier_required : String
  score : ℚ
  reason : String
deriving Repr, DecidableEq

/-- The `model_data` store loaded at startup.
`member_index`/`course_columns` are the index and columns of
`member_course_matrix`, with `plays` its entries; `sim_index` is the
(shared) index/columns of the square `member_similarity_df`, with `sim`
its entries. -/
structure ModelData where
  member_index : List String
  course_columns : List String
  plays : String → String → Nat
  sim_index : List String
  sim : String → String → ℚ
  members_df : List Member
  courses_df : List Course
  member_names : List (String × String)

/-- Python list slicing `xs[:n]` (also pandas `head(n)`): for `n ≥ 0` the
first `n` elements, for `n < 0` all but the last `|n|` elements. -/
def pyTake {α : Type} (n : Int) (xs : List α) : List α :=
  if 0 ≤ n then xs.take n.toNat else xs.take (xs.length - (-n).toNat)

/-- Round half to even on an exact rational, as Python `round` on the
exact value. -/
def pyRound (x : ℚ) : ℤ :=
  let n := ⌊x⌋
  let f := x - n
  if f < 1/2 then n
  else if 1/2 < f then n + 1
  else if n % 2 = 0 then n else n + 1

/-- Python `round(x, 2)`: round to 2 decimal places, half to even. -/
def pyRound2 (x : ℚ) : ℚ := (pyRound (x * 100) : ℚ) / 100

/-- `member_names.get(str(other_id), 'Member')`. -/
def lookupName (d : ModelData) (o : String) : String :=
  match d.member_names.find? (fun p => p.1 == o) with
  | some p => p.2
  | none => "Member"

/-- `similarities = member_similarity_df[member_id].drop(member_id)`:
the index of the member's similarity vector after dropping the member
itself. -/
def simOthers (d : ModelData) (m : String) : List String :=
  d.sim_index.filter (fun o => o != m)

/-- The loop `for other_member_id in similarities.index: score +=
similarity * plays`, accumulating from 0 in iteration order. -/
def scoreOf (d : ModelData) (m c : String) : ℚ :=
  (simOthers d m).foldl (fun acc o => acc + d.sim m o * (d.plays o c : ℚ)) 0

/-- The filter applied to each `course_id` of `member_course_matrix.columns`:
skip played courses, courses with no metadata row, and premium courses for
non-premium members. -/
def keepCourse (d : ModelData) (m : String) (isPrem : Bool) (c : String) : Bool :=
  if d.plays m c > 0 then false
  else
    match d.courses_df.find? (fun r => r.course_id == c) with
    | none => false
    | some row => !(row.tier_required == "premium" && !isPrem)

/-- The contribution of one matrix column to the `course_scores` dict:
its scored pair when it passes `keepCourse`, nothing otherwise. -/
def scorePick (d : ModelData) (m : String) (isPrem : Bool) (c : String) :
    Option (String × ℚ) :=
  if keepCourse d m isPrem c then some (c, scoreOf d m c) else none

/-- The `course_scores` dict in insertion order: one `(course_id, score)`
pair per column that passes `keepCourse`. -/
def courseScores (d : ModelData) (m : String) (isPrem : Bool) :
    List (String × ℚ) :=
  d.course_columns.filterMap (scorePick d m isPrem)

/-- Insert into a descending-by-score list, before the first entry whose
score is `≤` the new one (the new entry is earliest in original order,
so it precedes equal scores — stability). -/
def insertDesc (p : String × ℚ) : List (String × ℚ) → List (String × ℚ)
  | [] => [p]
  | q :: rest => if p.2 < q.2 then q :: insertDesc p rest else p :: q :: rest

/-- Stable descending sort by score, as Python
`sorted(items, key=lambda x: x[1], reverse=True)` (a stable sort;
its output is determined by the key order and stability). -/
def sortDesc : List (String × ℚ) → List (String × ℚ)
  | [] => []
  | p :: rest => insertDesc p (sortDesc rest)

/-- The `similar_members` list for a selected course: display names of
other members (in similarity-vector iteration order) who played the
course and whose similarity exceeds 0.3. -/
def similarMembers (d : ModelData) (m c : String) : List String :=
  ((simOthers d m).filter
      (fun o => decide (d.plays o c > 0) && decide (d.sim m o > 3/10))).map
    (lookupName d)

/-- The `reason` string: `"Played by: "` with the first at most two names,
or the fallback text when no similar member qualifies. -/
def reasonFor (sm : List String) : String :=
  if sm.isEmpty then "Recommended for you"
  else "Played by: " ++ String.intercalate ", " (sm.take 2)

/-- Build one result record for a selected `(course_id, score)` pair:
metadata from the first matching `courses_df` row, score rounded to two
decimals, reason from `similarMembers`.  (The `none` branch of the row
lookup is unreachable for pairs produced by `courseScores`.) -/
def mkResult (d : ModelData) (m : String) (p : String × ℚ) : RecEntry :=
  let row := (d.courses_df.find? (fun r => r.course_id == p.1)).getD
    { course_id := p.1, name := "", city := "", state := "", tier_required := "" }
  { id := p.1, name := row.name, city := row.city, state := row.state,
    tier_required := row.tier_required, score := pyRound2 p.2,
    reason := reasonFor (similarMembers d m p.1) }

/-- `get_popular_courses`: fallback for new members — the first `n`
catalog rows, score 0, reason "Popular course".  The `member_id`
argument is unused by the body. -/
def get_popular_courses (d : ModelData) (member_id : String) (n : Int) :
    List RecEntry :=
  (pyTake n d.courses_df).map (fun c =>
    { id := c.course_id, name := c.name, city := c.city, state := c.state,
      tier_required := c.tier_required, score := 0, reason := "Popular course" })

/-- `get_recommendations`: the collaborative-filtering engine of
`src/api.py`. -/
def get_recommendations (d : ModelData) (member_id : String) (n : Int) :
    List RecEntry :=
  if member_id ∈ d.member_index then
    match d.members_df.find? (fun r => r.member_id == member_id) with
    | none => []
    | some mrow =>
        let isPrem : Bool := mrow.tier == "premium"
        let sorted := sortDesc (courseScores d member_id isPrem)
        (pyTake n sorted).map (mkResult d member_id)
  else get_popular_courses d member_id n

/-!
Exception-aware variant.  The Python function performs pandas label
lookups that raise `KeyError` when a label is missing:
`member_similarity_df[member_id]` / `.drop(member_id)` (requires the
member in the similarity index) and
`member_course_matrix.loc[other_member_id, course_id]` (requires the row
and column labels in the matrix).  The `ExceptVariant` definitions model
those lookups as fallible and otherwise mirror `get_recommendations`
statement by statement, so that "raises no error" can be stated.
-/

/-- `member_course_matrix.loc[o, c]`: `KeyError` unless both labels
exist. -/
def locE (d : ModelData) (o c : String) : Except String Nat :=
  if o ∈ d.member_index ∧ c ∈ d.course_columns then .ok (d.plays o c)
  else .error "KeyError"

/-- `member_similarity_df[m].drop(m)`: `KeyError` unless `m` is a
column/index label of the similarity matrix. -/
def simColumnE (d : ModelData) (m : String) : Except String Unit :=
  if m ∈ d.sim_index then .ok () else .error "KeyError"

/-- Exception-aware form of the score accumulation loop. -/
def scoreOfE (d : ModelData) (m c : String) : Except String ℚ :=
  (simOthers d m).foldlM (fun acc o => do
    let p ← locE d o c
    pure (acc + d.sim m o * (p : ℚ))) 0

/-- Exception-aware form of the `similar_members` loop (each iteration
performs a matrix lookup before testing the condition). -/
def similarMembersE (d : ModelData) (m c : String) :
    Except String (List String) :=
  (simOthers d m).foldlM (fun acc o => do
    let p ← locE d o c
    pure (if decide (p > 0) && decide (d.sim m o > 3/10)
          then acc ++ [lookupName d o] else acc)) []

/-- One iteration of the `course_scores` loop: skip played courses,
courses without metadata, and tier-gated courses; otherwise score the
course (performing the fallible matrix lookups) and append it. -/
def courseScoresStep (d : ModelData) (m : String) (isPrem : Bool)
    (acc : List (String × ℚ)) (c : String) :
    Except String (List (String × ℚ)) :=
  if d.plays m c > 0 then pure acc
  else
    match d.courses_df.find? (fun r => r.course_id == c) with
    | none => pure acc
    | some row =>
        if row.tier_required == "premium" && !isPrem then pure acc
        else do
          let s ← scoreOfE d m c
          pure (acc ++ [(c, s)])

/-- Exception-aware form of the `course_scores` loop over the matrix
columns. -/
def courseScoresE (d : ModelData) (m : String) (isPrem : Bool) :
    Except String (List (String × ℚ)) :=
  d.course_columns.foldlM (courseScoresStep d m isPrem) []

/-- Exception-aware form of building one result record
(`.iloc[0]` raises `IndexError` on an empty selection). -/
def mkResultE (d : ModelData) (m : String) (p : String × ℚ) :
    Except String RecEntry :=
  match d.courses_df.find? (fun r => r.course_id == p.1) with
  | none => .error "IndexError"
  | some row => do
      let sm ← similarMembersE d m p.1
      pure { id := p.1, name := row.name, city := row.city,
             state := row.state, tier_required := row.tier_required,
             score := pyRound2 p.2, reason := reasonFor sm }

/-- Exception-aware `get_recommendations`: same control flow, with the
fallible lookups made explicit. -/
def get_recommendationsE (d : ModelData) (member_id : String) (n : Int) :
    Except String (List RecEntry) :=
  if member_id ∈ d.member_index then
    match d.members_df.find? (fun r => r.member_id == member_id) with
    | none => pure []
    | some mrow => do
        let _u ← simColumnE d member_id
        let scores ← courseScoresE d member_id (mrow.tier == "premium")
        (pyTake n (sortDesc scores)).mapM (mkResultE d member_id)
  else pure (get_popular_courses d member_id n)

/-- A small concrete model store used for concrete evaluations:
four members in the matrices (`M4` "missing" from the member table),
three courses, `C3` premium-gated, and the similarity values of the
spec's worked scenario (`sim(M1,M2) = 0.8`, `sim(M1,M3) = 0.1`). -/
def exD : ModelData where
  member_index := ["M1", "M2", "M3", "M4"]
  course_columns := ["C1", "C2", "C3"]
  plays := fun m c =>
    if m = "M1" ∧ c = "C2" then 1
    else if m = "M2" ∧ c = "C1" then 2
    else if m = "M2" ∧ c = "C3" then 1
    else if m = "M3" ∧ c = "C1" then 1
    else 0
  sim_index := ["M1", "M2", "M3", "M4"]
  sim := fun a b =>
    if a = b then 1
    else if (a = "M1" ∧ b = "M2") ∨ (a = "M2" ∧ b = "M1") then 8/10
    else if (a = "M1" ∧ b = "M3") ∨ (a = "M3" ∧ b = "M1") then 1/10
    else if (a = "M2" ∧ b = "M3") ∨ (a = "M3" ∧ b = "M2") then 2/10
    else 0
  members_df := [⟨"M1", "premium"⟩, ⟨"M2", "standard"⟩, ⟨"M3", "standard"⟩]
  courses_df :=
    [⟨"C1", "Pine Valley", "Pine Valley", "NJ", "standard"⟩,
     ⟨"C2", "Cypress Point", "Pebble Beach", "CA", "standard"⟩,
     ⟨"C3", "Augusta National", "Augusta", "GA", "premium"⟩]
  member_names := [("M2", "Bob"), ("M3", "Carol")]

/-! ### Basic lemmas about the sorting and slicing helpers -/

theorem mem_insertDesc {p x : String × ℚ} {l : List (String × ℚ)} :
    x ∈ insertDesc p l ↔ x = p ∨ x ∈ l := by
  induction l with
  | nil => simp [insertDesc]
  | cons q rest ih =>
      simp only [insertDesc]
      split
      · simp only [List.mem_cons, ih]
        tauto
      · simp only [List.mem_cons]

theorem mem_sortDesc {x : String × ℚ} {l : List (String × ℚ)} :
    x ∈ sortDesc l ↔ x ∈ l := by
  induction l with
  | nil => simp [sortDesc]
  | cons p rest ih => simp [sortDesc, mem_insertDesc, ih]

theorem length_insertDesc (p : String × ℚ) (l : List (String × ℚ)) :
    (insertDesc p l).length = l.length + 1 := by
  induction l with
  | nil => rfl
  | cons q rest ih =>
      simp only [insertDesc]
      split
      · simp [ih]
      · simp

theorem length_sortDesc (l : List (String × ℚ)) :
    (sortDesc l).length = l.length := by
  induction l with
  | nil => rfl
  | cons p rest ih => simp [sortDesc, length_insertDesc, ih]

theorem pyTake_subset {α : Type} (n : Int) (xs : List α) : pyTake n xs ⊆ xs := by
  unfold pyTake
  split
  · exact List.take_subset _ _
  · exact List.take_subset _ _

theorem length_pyTake_le {α : Type} {n : Int} (xs : List α) (h : 0 ≤ n) :
    ((pyTake n xs).length : Int) ≤ n := by
  unfold pyTake
  rw [if_pos h]
  have h1 : (xs.take n.toNat).length ≤ n.toNat := by
    rw [List.length_take]
    exact Nat.min_le_left _ _
  have h2 := Int.toNat_of_nonneg h
  omega

/-! ### Characterizing how a course enters the scoring result -/

theorem keepCourse_plays {d : ModelData} {m : String} {b : Bool} {c : String}
    (h : keepCourse d m b c = true) : d.plays m c = 0 := by
  unfold keepCourse at h
  split at h
  · cases h
  · next hg => omega

theorem keepCourse_row {d : ModelData} {m : String} {b : Bool} {c : String}
    (h : keepCourse d m b c = true) :
    ∃ row, d.courses_df.find? (fun r => r.course_id == c) = some row ∧
      (row.tier_required == "premium" && !b) = false := by
  unfold keepCourse at h
  split at h
  · cases h
  · split at h
    · cases h
    · next row hfind => exact ⟨row, hfind, by rwa [Bool.not_eq_true'] at h⟩

theorem mem_courseScores {d : ModelData} {m : String} {b : Bool}
    {c : String} {s : ℚ} :
    (c, s) ∈ courseScores d m b ↔
      c ∈ d.course_columns ∧ keepCourse d m b c = true ∧ s = scoreOf d m c := by
  unfold courseScores
  rw [List.mem_filterMap]
  constructor
  · rintro ⟨c', hc', hopt⟩
    unfold scorePick at hopt
    split at hopt
    · next hk =>
        injection hopt with h
        injection h with h1 h2
        subst h1; subst h2
        exact ⟨hc', hk, rfl⟩
    · cases hopt
  · rintro ⟨h1, h2, h3⟩
    refine ⟨c, h1, ?_⟩
    unfold scorePick
    rw [if_pos h2, h3]

theorem mem_scoring_result {d : ModelData} {m : String} {n : Int}
    {mrow : Member} {r : RecEntry}
    (h1 : m ∈ d.member_index)
    (h2 : d.members_df.find? (fun x => x.member_id == m) = some mrow)
    (hr : r ∈ get_recommendations d m n) :
    ∃ c ∈ d.course_columns,
      keepCourse d m (mrow.tier == "premium") c = true ∧
      r = mkResult d m (c, scoreOf d m c) := by
  unfold get_recommendations at hr
  rw [if_pos h1] at hr
  rw [h2] at hr
  simp only [List.mem_map] at hr
  obtain ⟨p, hp, hpr⟩ := hr
  have hp1 : p ∈ sortDesc (courseScores d m (mrow.tier == "premium")) :=
    pyTake_subset _ _ hp
  rw [mem_sortDesc] at hp1
  obtain ⟨c, s⟩ := p
  rw [mem_courseScores] at hp1
  obtain ⟨hc, hk, hs⟩ := hp1
  exact ⟨c, hc, hk, by rw [← hpr, hs]⟩

theorem scoreOf_eq_sum (d : ModelData) (m c : String) :
    scoreOf d m c
      = ((simOthers d m).map (fun o => d.sim m o * (d.plays o c : ℚ))).sum := by
  unfold scoreOf
  rw [List.sum_eq_foldl, List.foldl_map]

/-! ### Claim theorems -/

/-- Claim C1: for a member present in the interaction-matrix index and the
member table, the score reported for each recommended course equals the
sum over all other members of similarity(member, other) times
interaction_count(other, course), rounded to 2 decimal places. -/
theorem claim_C1_score_is_similarity_dot_interactions
    (d : ModelData) (m : String) (n : Int) (mrow : Member) (r : RecEntry)
    (h1 : m ∈ d.member_index)
    (h2 : d.members_df.find? (fun x => x.member_id == m) = some mrow)
    (hr : r ∈ get_recommendations d m n) :
    r.score = pyRound2
      (((simOthers d m).map (fun o => d.sim m o * (d.plays o r.id : ℚ))).sum) := by
  obtain ⟨c, hc, hk, hrfl⟩ := mem_scoring_result h1 h2 hr
  subst hrfl
  simp only [mkResult]
  rw [scoreOf_eq_sum]

/-- Claim C2: for a member absent from the interaction-matrix index,
`get_recommendations` returns the fallback list: the first `n` catalog
courses in stored order, each with score 0 and reason "Popular course",
via `get_popular_courses` (not an error). -/
theorem claim_C2_fallback_for_unknown_member
    (d : ModelData) (m : String) (n : Int) (h : m ∉ d.member_index) :
    get_recommendations d m n = get_popular_courses d m n ∧
    get_recommendations d m n = (pyTake n d.courses_df).map (fun c =>
      { id := c.course_id, name := c.name, city := c.city, state := c.state,
        tier_required := c.tier_required, score := 0,
        reason := "Popular course" }) ∧
    ∀ r ∈ get_recommendations d m n,
      r.score = 0 ∧ r.reason = "Popular course" := by
  have he : get_recommendations d m n = get_popular_courses d m n := by
    unfold get_recommendations
    rw [if_neg h]
  refine ⟨he, by rw [he]; rfl, ?_⟩
  intro r hr
  rw [he] at hr
  unfold get_popular_courses at hr
  simp only [List.mem_map] at hr
  obtain ⟨c, -, hc⟩ := hr
  rw [← hc]
  exact ⟨rfl, rfl⟩

/-- Claim C3: a member known to the model whose tier is not "premium"
never receives a course whose `tier_required` is "premium". -/
theorem claim_C3_premium_gate
    (d : ModelData) (m : String) (n : Int) (mrow : Member) (r : RecEntry)
    (h1 : m ∈ d.member_index)
    (h2 : d.members_df.find? (fun x => x.member_id == m) = some mrow)
    (h3 : mrow.tier ≠ "premium")
    (hr : r ∈ get_recommendations d m n) :
    r.tier_required ≠ "premium" := by
  obtain ⟨c, hc, hk, hrfl⟩ := mem_scoring_result h1 h2 hr
  obtain ⟨row, hfind, hgate⟩ := keepCourse_row hk
  have hb : (mrow.tier == "premium") = false := by
    simpa using h3
  rw [hb] at hgate
  simp only [Bool.not_false, Bool.and_true] at hgate
  have hrow : row.tier_required ≠ "premium" := by
    simpa using hgate
  subst hrfl
  simp only [mkResult]
  rw [hfind]
  simpa using hrow

/-- Claim C4: a course whose interaction count for the member is strictly
positive (already played) never appears in the member's recommendation
list. -/
theorem claim_C4_played_never_recommended
    (d : ModelData) (m : String) (n : Int) (mrow : Member) (c : String)
    (h1 : m ∈ d.member_index)
    (h2 : d.members_df.find? (fun x => x.member_id == m) = some mrow)
    (hp : d.plays m c > 0) :
    ∀ r ∈ get_recommendations d m n, r.id ≠ c := by
  intro r hr
  obtain ⟨c', hc', hk, hrfl⟩ := mem_scoring_result h1 h2 hr
  subst hrfl
  intro hid
  simp only [mkResult] at hid
  subst hid
  have h0 := keepCourse_plays hk
  omega

/-- Claim C7: every course id in a scoring-path result exists as a row of
the course metadata table (columns without metadata are skipped, never
returned). -/
theorem claim_C7_results_have_metadata
    (d : ModelData) (m : String) (n : Int) (mrow : Member) (r : RecEntry)
    (h1 : m ∈ d.member_index)
    (h2 : d.members_df.find? (fun x => x.member_id == m) = some mrow)
    (hr : r ∈ get_recommendations d m n) :
    ∃ row ∈ d.courses_df, row.course_id = r.id := by
  obtain ⟨c, hc, hk, hrfl⟩ := mem_scoring_result h1 h2 hr
  obtain ⟨row, hfind, -⟩ := keepCourse_row hk
  refine ⟨row, List.mem_of_find?_eq_some hfind, ?_⟩
  have hbeq : row.course_id = c := by
    simpa using List.find?_some hfind
  subst hrfl
  simpa [mkResult] using hbeq

/-- Claim C8: each selected course's reason is "Played by: " with the
first at most two display names (similarity-vector order) of other
members with similarity above 0.3 who played the course, else the
literal "Recommended for you". -/
theorem claim_C8_reason_string
    (d : ModelData) (m : String) (n : Int) (mrow : Member) (r : RecEntry)
    (h1 : m ∈ d.member_index)
    (h2 : d.members_df.find? (fun x => x.member_id == m) = some mrow)
    (hr : r ∈ get_recommendations d m n) :
    r.reason =
      (if (similarMembers d m r.id).isEmpty then "Recommended for you"
       else "Played by: "
          ++ String.intercalate ", " ((similarMembers d m r.id).take 2)) := by
  obtain ⟨c, hc, hk, hrfl⟩ := mem_scoring_result h1 h2 hr
  subst hrfl
  simp only [mkResult, reasonFor]

/-- Claim C9: a member id present in the interaction-matrix index but
absent from the member table yields the empty list. -/
theorem claim_C9_missing_member_row_empty
    (d : ModelData) (m : String) (n : Int)
    (h1 : m ∈ d.member_index)
    (h2 : d.members_df.find? (fun x => x.member_id == m) = none) :
    get_recommendations d m n = [] := by
  unfold get_recommendations
  rw [if_pos h1, h2]

/-- Claim C10: the fallback result does not depend on the member id —
two members both absent from the interaction-matrix index receive
identical lists. -/
theorem claim_C10_fallback_member_independent
    (d : ModelData) (m1 m2 : String) (n : Int)
    (h1 : m1 ∉ d.member_index) (h2 : m2 ∉ d.member_index) :
    get_recommendations d m1 n = get_recommendations d m2 n := by
  unfold get_recommendations
  rw [if_neg h1, if_neg h2]
  unfold get_popular_courses
  rfl

/-- Claim C6, counterexample: the claim quantifies over every value of
`limit`, but for a negative limit the Python slice `[:n]` keeps all but
the last `|n|` elements, so with the three-course catalog and
`limit = -1` the fallback returns a 2-element list, and `2 ≤ -1` fails. -/
theorem claim_C6_counterexample :
    ¬ (((get_recommendations exD "Mx" (-1)).length : Int) ≤ -1) := by decide

/-- Claim C6 (amended): for every member id and every NON-NEGATIVE
`limit`, the returned list (scoring or fallback path) has length at most
`limit`, and its length is at least 0. -/
theorem claim_C6_length_bounded
    (d : ModelData) (m : String) (n : Int) (h : 0 ≤ n) :
    ((get_recommendations d m n).length : Int) ≤ n ∧
      0 ≤ (get_recommendations d m n).length := by
  refine ⟨?_, Nat.zero_le _⟩
  unfold get_recommendations
  split
  · split
    · simpa using h
    · rw [List.length_map]
      exact length_pyTake_le _ h
  · unfold get_popular_courses
    rw [List.length_map]
    exact length_pyTake_le _ h

/-! ### The exception-aware engine never errors on a consistent store -/

theorem scoreGoE_ok (d : ModelData) (m c : String) (l : List String) (acc : ℚ)
    (hl : ∀ o ∈ l, o ∈ d.member_index) (hc : c ∈ d.course_columns) :
    l.foldlM (fun acc o => do
        let p ← locE d o c
        pure (acc + d.sim m o * (p : ℚ))) acc
      = Except.ok
          (l.foldl (fun acc o => acc + d.sim m o * (d.plays o c : ℚ)) acc) := by
  induction l generalizing acc with
  | nil => rfl
  | cons o rest ih =>
      have ho : o ∈ d.member_index := hl o (List.mem_cons_self _ _)
      have hloc : locE d o c = .ok (d.plays o c) := by
        unfold locE
        rw [if_pos ⟨ho, hc⟩]
      have step : (o :: rest).foldlM (fun acc o => do
            let p ← locE d o c
            pure (acc + d.sim m o * (p : ℚ))) acc
          = rest.foldlM (fun acc o => do
              let p ← locE d o c
              pure (acc + d.sim m o * (p : ℚ)))
              (acc + d.sim m o * (d.plays o c : ℚ)) := by
        rw [List.foldlM_cons, hloc]
        rfl
      rw [step, List.foldl_cons]
      exact ih _ (fun x hx => hl x (List.mem_cons_of_mem _ hx))

theorem scoreOfE_ok (d : ModelData) (m c : String)
    (hsm : ∀ o ∈ d.sim_index, o ∈ d.member_index)
    (hc : c ∈ d.course_columns) :
    scoreOfE d m c = .ok (scoreOf d m c) := by
  unfold scoreOfE scoreOf
  exact scoreGoE_ok d m c _ 0
    (fun o ho => hsm o (List.mem_of_mem_filter ho)) hc

theorem similarGoE_ok (d : ModelData) (m c : String) (l : List String)
    (acc : List String)
    (hl : ∀ o ∈ l, o ∈ d.member_index) (hc : c ∈ d.course_columns) :
    l.foldlM (fun acc o => do
        let p ← locE d o c
        pure (if decide (p > 0) && decide (d.sim m o > 3/10)
              then acc ++ [lookupName d o] else acc)) acc
      = Except.ok (acc ++ (l.filter
          (fun o => decide (d.plays o c > 0)
            && decide (d.sim m o > 3/10))).map (lookupName d)) := by
  induction l generalizing acc with
  | nil =>
      rw [List.foldlM_nil, List.filter_nil, List.map_nil, List.append_nil]
      rfl
  | cons o rest ih =>
      have ho : o ∈ d.member_index := hl o (List.mem_cons_self _ _)
      have hrest : ∀ x ∈ rest, x ∈ d.member_index :=
        fun x hx => hl x (List.mem_cons_of_mem _ hx)
      have hloc : locE d o c = .ok (d.plays o c) := by
        unfold locE
        rw [if_pos ⟨ho, hc⟩]
      have step : (o :: rest).foldlM (fun acc o => do
            let p ← locE d o c
            pure (if decide (p > 0) && decide (d.sim m o > 3/10)
                  then acc ++ [lookupName d o] else acc)) acc
          = rest.foldlM (fun acc o => do
              let p ← locE d o c
              pure (if decide (p > 0) && decide (d.sim m o > 3/10)
                    then acc ++ [lookupName d o] else acc))
              (if decide (d.plays o c > 0) && decide (d.sim m o > 3/10)
               then acc ++ [lookupName d o] else acc) := by
        rw [List.foldlM_cons, hloc]
        rfl
      rw [step]
      by_cases hcond :
          (decide (d.plays o c > 0) && decide (d.sim m o > 3/10)) = true
      · rw [if_pos hcond, ih _ hrest]
        simp [List.filter_cons, hcond]
      · rw [if_neg hcond, ih _ hrest]
        simp [List.filter_cons, hcond]

theorem similarMembersE_ok (d : ModelData) (m c : String)
    (hsm : ∀ o ∈ d.sim_index, o ∈ d.member_index)
    (hc : c ∈ d.course_columns) :
    similarMembersE d m c = .ok (similarMembers d m c) := by
  unfold similarMembersE similarMembers
  have h := similarGoE_ok d m c (simOthers d m) []
    (fun o ho => hsm o (List.mem_of_mem_filter ho)) hc
  simpa using h


theorem exPure_bind {α β : Type} (a : α) (f : α → Except String β) :
    (pure a : Except String α) >>= f = f a := rfl

theorem exOk_bind {α β : Type} (a : α) (f : α → Except String β) :
    (Except.ok a : Except String α) >>= f = f a := rfl

theorem courseScoresStep_played (d : ModelData) (m : String) (isPrem : Bool)
    (acc : List (String × ℚ)) (c : String) (h0 : d.plays m c > 0) :
    courseScoresStep d m isPrem acc c = pure acc := by
  unfold courseScoresStep
  rw [if_pos h0]

theorem courseScoresStep_nometa (d : ModelData) (m : String) (isPrem : Bool)
    (acc : List (String × ℚ)) (c : String) (h0 : ¬ d.plays m c > 0)
    (hfind : d.courses_df.find? (fun r => r.course_id == c) = none) :
    courseScoresStep d m isPrem acc c = pure acc := by
  unfold courseScoresStep
  rw [if_neg h0, hfind]

theorem courseScoresStep_gated (d : ModelData) (m : String) (isPrem : Bool)
    (acc : List (String × ℚ)) (c : String) (row : Course)
    (h0 : ¬ d.plays m c > 0)
    (hfind : d.courses_df.find? (fun r => r.course_id == c) = some row)
    (hg : (row.tier_required == "premium" && !isPrem) = true) :
    courseScoresStep d m isPrem acc c = pure acc := by
  unfold courseScoresStep
  rw [if_neg h0, hfind]
  exact if_pos hg

theorem courseScoresStep_keep (d : ModelData) (m : String) (isPrem : Bool)
    (acc : List (String × ℚ)) (c : String) (row : Course)
    (h0 : ¬ d.plays m c > 0)
    (hfind : d.courses_df.find? (fun r => r.course_id == c) = some row)
    (hg : ¬ (row.tier_required == "premium" && !isPrem) = true) :
    courseScoresStep d m isPrem acc c
      = (do
          let s ← scoreOfE d m c
          pure (acc ++ [(c, s)])) := by
  unfold courseScoresStep
  rw [if_neg h0, hfind]
  exact if_neg hg

theorem keepCourse_of_played (d : ModelData) (m : String) (isPrem : Bool)
    (c : String) (h0 : d.plays m c > 0) :
    keepCourse d m isPrem c = false := by
  unfold keepCourse
  rw [if_pos h0]

theorem keepCourse_of_nometa (d : ModelData) (m : String) (isPrem : Bool)
    (c : String) (h0 : ¬ d.plays m c > 0)
    (hfind : d.courses_df.find? (fun r => r.course_id == c) = none) :
    keepCourse d m isPrem c = false := by
  unfold keepCourse
  rw [if_neg h0, hfind]

theorem keepCourse_of_gated (d : ModelData) (m : String) (isPrem : Bool)
    (c : String) (row : Course) (h0 : ¬ d.plays m c > 0)
    (hfind : d.courses_df.find? (fun r => r.course_id == c) = some row)
    (hg : (row.tier_required == "premium" && !isPrem) = true) :
    keepCourse d m isPrem c = false := by
  unfold keepCourse
  rw [if_neg h0, hfind]
  show (!(row.tier_required == "premium" && !isPrem)) = false
  rw [hg]
  rfl

theorem keepCourse_of_kept (d : ModelData) (m : String) (isPrem : Bool)
    (c : String) (row : Course) (h0 : ¬ d.plays m c > 0)
    (hfind : d.courses_df.find? (fun r => r.course_id == c) = some row)
    (hg : ¬ (row.tier_required == "premium" && !isPrem) = true) :
    keepCourse d m isPrem c = true := by
  unfold keepCourse
  rw [if_neg h0, hfind]
  show (!(row.tier_required == "premium" && !isPrem)) = true
  have hg2 : (row.tier_required == "premium" && !isPrem) = false :=
    Bool.eq_false_iff.mpr hg
  rw [hg2]
  rfl

theorem scorePick_of_false (d : ModelData) (m : String) (isPrem : Bool)
    (c : String) (hk : keepCourse d m isPrem c = false) :
    scorePick d m isPrem c = none := by
  unfold scorePick
  rw [hk]
  rfl

theorem scorePick_of_true (d : ModelData) (m : String) (isPrem : Bool)
    (c : String) (hk : keepCourse d m isPrem c = true) :
    scorePick d m isPrem c = some (c, scoreOf d m c) := by
  unfold scorePick
  rw [hk]
  rfl

theorem courseScoresGoE_ok (d : ModelData) (m : String) (isPrem : Bool)
    (l : List String) (acc : List (String × ℚ))
    (hsm : ∀ o ∈ d.sim_index, o ∈ d.member_index)
    (hl : ∀ c ∈ l, c ∈ d.course_columns) :
    l.foldlM (courseScoresStep d m isPrem) acc
      = Except.ok (acc ++ l.filterMap (scorePick d m isPrem)) := by
  induction l generalizing acc with
  | nil =>
      rw [List.foldlM_nil, List.filterMap_nil, List.append_nil]
      rfl
  | cons c rest ih =>
      have hc : c ∈ d.course_columns := hl c (List.mem_cons_self _ _)
      have hrest : ∀ x ∈ rest, x ∈ d.course_columns :=
        fun x hx => hl x (List.mem_cons_of_mem _ hx)
      rw [List.foldlM_cons]
      by_cases h0 : d.plays m c > 0
      · rw [courseScoresStep_played d m isPrem acc c h0, exPure_bind,
          List.filterMap_cons_none
            (scorePick_of_false d m isPrem c
              (keepCourse_of_played d m isPrem c h0))]
        exact ih _ hrest
      · cases hfind : d.courses_df.find? (fun r => r.course_id == c) with
        | none =>
            rw [courseScoresStep_nometa d m isPrem acc c h0 hfind, exPure_bind,
              List.filterMap_cons_none
                (scorePick_of_false d m isPrem c
                  (keepCourse_of_nometa d m isPrem c h0 hfind))]
            exact ih _ hrest
        | some row =>
            by_cases hg : (row.tier_required == "premium" && !isPrem) = true
            · rw [courseScoresStep_gated d m isPrem acc c row h0 hfind hg,
                exPure_bind,
                List.filterMap_cons_none
                  (scorePick_of_false d m isPrem c
                    (keepCourse_of_gated d m isPrem c row h0 hfind hg))]
              exact ih _ hrest
            · rw [courseScoresStep_keep d m isPrem acc c row h0 hfind hg,
                scoreOfE_ok d m c hsm hc, exOk_bind, exPure_bind,
                List.filterMap_cons_some
                  (scorePick_of_true d m isPrem c
                    (keepCourse_of_kept d m isPrem c row h0 hfind hg)),
                ih _ hrest]
              simp

theorem courseScoresE_ok (d : ModelData) (m : String) (isPrem : Bool)
    (hsm : ∀ o ∈ d.sim_index, o ∈ d.member_index) :
    courseScoresE d m isPrem = .ok (courseScores d m isPrem) := by
  unfold courseScoresE courseScores
  have h := courseScoresGoE_ok d m isPrem d.course_columns [] hsm
    (fun c hcc => hcc)
  simpa using h

theorem mkResultE_ok (d : ModelData) (m : String) (p : String × ℚ)
    (hsm : ∀ o ∈ d.sim_index, o ∈ d.member_index)
    (hc : p.1 ∈ d.course_columns) (row : Course)
    (hrow : d.courses_df.find? (fun r => r.course_id == p.1) = some row) :
    mkResultE d m p = .ok (mkResult d m p) := by
  unfold mkResultE
  rw [hrow]
  show (do
      let sm ← similarMembersE d m p.1
      pure { id := p.1, name := row.name, city := row.city,
             state := row.state, tier_required := row.tier_required,
             score := pyRound2 p.2,
             reason := reasonFor sm } : Except String RecEntry) = _
  rw [similarMembersE_ok d m p.1 hsm hc, exOk_bind]
  unfold mkResult
  rw [hrow]
  rfl

theorem mapME_ok (d : ModelData) (m : String) (l : List (String × ℚ))
    (hsm : ∀ o ∈ d.sim_index, o ∈ d.member_index)
    (hl : ∀ p ∈ l, p.1 ∈ d.course_columns ∧
      ∃ row, d.courses_df.find? (fun r => r.course_id == p.1) = some row) :
    l.mapM (mkResultE d m) = Except.ok (l.map (mkResult d m)) := by
  induction l with
  | nil => rfl
  | cons p rest ih =>
      obtain ⟨hc, row, hrow⟩ := hl p (List.mem_cons_self _ _)
      rw [List.mapM_cons, mkResultE_ok d m p hsm hc row hrow, exOk_bind,
        ih (fun x hx => hl x (List.mem_cons_of_mem _ hx)), exOk_bind]
      rfl

/-- Claim C5: on a loaded, consistent model store (the interaction
matrix and the similarity matrix index the same members), the engine
raises no error for any member id and any count: the exception-aware
model returns `ok` of the pure result, with every "not found" case
(unknown member, member missing from the member table, course missing
metadata) degrading to the fallback, the empty list, or a skip. -/
theorem claim_C5_no_error
    (d : ModelData) (m : String) (n : Int)
    (hms : ∀ x ∈ d.member_index, x ∈ d.sim_index)
    (hsm : ∀ x ∈ d.sim_index, x ∈ d.member_index) :
    get_recommendationsE d m n = Except.ok (get_recommendations d m n) := by
  unfold get_recommendationsE get_recommendations
  by_cases hmem : m ∈ d.member_index
  · simp only [if_pos hmem]
    cases hfind : d.members_df.find? (fun r => r.member_id == m) with
    | none => rfl
    | some mrow =>
        have hsimc : simColumnE d m = .ok () := by
          unfold simColumnE
          rw [if_pos (hms m hmem)]
        have hall : ∀ p ∈ pyTake n
            (sortDesc (courseScores d m (mrow.tier == "premium"))),
            p.1 ∈ d.course_columns ∧
            ∃ row, d.courses_df.find? (fun r => r.course_id == p.1)
              = some row := by
          intro p hp
          have hp1 : p ∈ courseScores d m (mrow.tier == "premium") :=
            mem_sortDesc.mp (pyTake_subset _ _ hp)
          obtain ⟨c, s⟩ := p
          rw [mem_courseScores] at hp1
          obtain ⟨hc, hk, -⟩ := hp1
          obtain ⟨row, hrow, -⟩ := keepCourse_row hk
          exact ⟨hc, row, hrow⟩
        show (do
            let _u ← simColumnE d m
            let scores ← courseScoresE d m (mrow.tier == "premium")
            (pyTake n (sortDesc scores)).mapM (mkResultE d m)) = _
        rw [hsimc, exOk_bind,
          courseScoresE_ok d m (mrow.tier == "premium") hsm, exOk_bind,
          mapME_ok d m _ hsm hall]
  · simp only [if_neg hmem]
    rfl

/-! ### Concrete witnesses -/

/-- The first entry of `get_recommendations exD "M1" 5` (score
`0.8 * 2 + 0.1 * 1 = 1.7`, the spec's worked scenario). -/
def wEntry1 : RecEntry :=
  ⟨"C1", "Pine Valley", "Pine Valley", "NJ", "standard", 17/10,
    "Played by: Bob"⟩

/-- The single entry of `get_recommendations exD "M2" 5`. -/
def wEntry2 : RecEntry :=
  ⟨"C2", "Cypress Point", "Pebble Beach", "CA", "standard", 4/5,
    "Played by: Member"⟩

theorem claim_C1_witness :
    wEntry1 ∈ get_recommendations exD "M1" 5 ∧
    wEntry1.score = pyRound2 (((simOthers exD "M1").map
      (fun o => exD.sim "M1" o * (exD.plays o wEntry1.id : ℚ))).sum) :=
  ⟨by with_unfolding_all decide,
    claim_C1_score_is_similarity_dot_interactions exD "M1" 5
      ⟨"M1", "premium"⟩ wEntry1 (by with_unfolding_all decide) (by with_unfolding_all decide) (by with_unfolding_all decide)⟩

theorem claim_C2_witness :
    ("Mx" ∉ exD.member_index) ∧
    (get_recommendations exD "Mx" 5 = get_popular_courses exD "Mx" 5 ∧
     get_recommendations exD "Mx" 5 = (pyTake 5 exD.courses_df).map (fun c =>
        { id := c.course_id, name := c.name, city := c.city, state := c.state,
          tier_required := c.tier_required, score := 0,
          reason := "Popular course" }) ∧
     ∀ r ∈ get_recommendations exD "Mx" 5,
       r.score = 0 ∧ r.reason = "Popular course") :=
  ⟨by with_unfolding_all decide, claim_C2_fallback_for_unknown_member exD "Mx" 5 (by with_unfolding_all decide)⟩

theorem claim_C3_witness :
    (⟨"M2", "standard"⟩ : Member).tier ≠ "premium" ∧
    wEntry2 ∈ get_recommendations exD "M2" 5 ∧
    wEntry2.tier_required ≠ "premium" :=
  ⟨by with_unfolding_all decide, by with_unfolding_all decide,
    claim_C3_premium_gate exD "M2" 5 ⟨"M2", "standard"⟩ wEntry2
      (by with_unfolding_all decide) (by with_unfolding_all decide) (by with_unfolding_all decide) (by with_unfolding_all decide)⟩

theorem claim_C4_witness :
    exD.plays "M1" "C2" > 0 ∧
    ∀ r ∈ get_recommendations exD "M1" 5, r.id ≠ "C2" :=
  ⟨by with_unfolding_all decide,
    claim_C4_played_never_recommended exD "M1" 5 ⟨"M1", "premium"⟩ "C2"
      (by with_unfolding_all decide) (by with_unfolding_all decide) (by with_unfolding_all decide)⟩

theorem claim_C5_witness :
    (∀ x ∈ exD.member_index, x ∈ exD.sim_index) ∧
    (∀ x ∈ exD.sim_index, x ∈ exD.member_index) ∧
    get_recommendationsE exD "M1" 3
      = Except.ok (get_recommendations exD "M1" 3) :=
  ⟨by with_unfolding_all decide, by with_unfolding_all decide,
    claim_C5_no_error exD "M1" 3 (by with_unfolding_all decide) (by with_unfolding_all decide)⟩

theorem claim_C6_witness :
    (0 : Int) ≤ 5 ∧
    (((get_recommendations exD "M1" 5).length : Int) ≤ 5 ∧
      0 ≤ (get_recommendations exD "M1" 5).length) :=
  ⟨by with_unfolding_all decide, claim_C6_length_bounded exD "M1" 5 (by with_unfolding_all decide)⟩

theorem claim_C7_witness :
    wEntry1 ∈ get_recommendations exD "M1" 5 ∧
    ∃ row ∈ exD.courses_df, row.course_id = wEntry1.id :=
  ⟨by with_unfolding_all decide,
    claim_C7_results_have_metadata exD "M1" 5 ⟨"M1", "premium"⟩ wEntry1
      (by with_unfolding_all decide) (by with_unfolding_all decide) (by with_unfolding_all decide)⟩

theorem claim_C8_witness :
    wEntry1 ∈ get_recommendations exD "M1" 5 ∧
    wEntry1.reason =
      (if (similarMembers exD "M1" wEntry1.id).isEmpty
       then "Recommended for you"
       else "Played by: "
          ++ String.intercalate ", "
              ((similarMembers exD "M1" wEntry1.id).take 2)) :=
  ⟨by with_unfolding_all decide,
    claim_C8_reason_string exD "M1" 5 ⟨"M1", "premium"⟩ wEntry1
      (by with_unfolding_all decide) (by with_unfolding_all decide) (by with_unfolding_all decide)⟩

theorem claim_C9_witness :
    "M4" ∈ exD.member_index ∧
    exD.members_df.find? (fun x => x.member_id == "M4") = none ∧
    get_recommendations exD "M4" 2 = [] :=
  ⟨by with_unfolding_all decide, by with_unfolding_all decide,
    claim_C9_missing_member_row_empty exD "M4" 2 (by with_unfolding_all decide) (by with_unfolding_all decide)⟩

theorem claim_C10_witness :
    "Mx" ∉ exD.member_index ∧ "My" ∉ exD.member_index ∧
    get_recommendations exD "Mx" 5 = get_recommendations exD "My" 5 :=
  ⟨by with_unfolding_all decide, by with_unfolding_all decide,
    claim_C10_fallback_member_independent exD "Mx" "My" 5
      (by with_unfolding_all decide) (by with_unfolding_all decide)⟩
